import Mathlib

/-!
Shallow embedding of the tegola data-provider engine
(`provider/provider.go` and `provider/postgis/postgis.go`), with theorems
checking the natural-language specification against the code.

Machine integers are modelled as `Nat`/`Int`; Go maps written only by
insertion are modelled as association lists in insertion order; fallible Go
functions returning `(T, error)` are modelled with `Except`/`Option`.
-/

namespace Tegola

/-! ## Driver registry (`provider/provider.go`) -/

/-- The two provider capability kinds, `TypeStd` and `TypeMvt` in the source
(`providerType uint8`, values `1 << iota`). -/
inductive ProviderType where
  | std
  | mvt
deriving DecidableEq, Repr

/-- Numeric value of a provider type: `TypeStd = 1`, `TypeMvt = 2`. -/
def ProviderType.val : ProviderType → Nat
  | .std => 1
  | .mvt => 2

/-- `TypeAll = TypeStd & TypeMvt` exactly as written in the source
(a bitwise AND, which evaluates to 0). -/
def TypeAll : Nat := Nat.land (ProviderType.val .std) (ProviderType.val .mvt)

/-- `providerFilterInclude`: OR together the numeric values of the given
provider types. -/
def providerFilterInclude (filters : List ProviderType) : Nat :=
  filters.foldl (fun ret v => Nat.lor ret v.val) 0

/-- `providerFilter.Is`: true when the filter has any one of the given
provider types' bits set. -/
def filterIs (pf : Nat) (ps : List ProviderType) : Bool :=
  Nat.land pf (providerFilterInclude ps) ≠ 0

/-- Opaque configuration value handed to constructors (`dict.Dicter`). -/
abbrev Config : Type := Nat

/-- Registry-level errors of `provider/provider.go`.
Modelled from the spec: the error declarations (`ErrNilInitFunc`,
`ErrUnknownProvider`, `ErrInvalidRegisteredProvider`) live in a source file
that is not part of the extract; their shapes follow the uses in
`provider.go` (UnknownDriver carries the list of known driver names) and the
spec's error taxonomy. The duplicate-registration error is the formatted
`provider %v already exists` error of the source. -/
inductive PErr where
  | nilInitFunc
  | unknownProvider (knownProviders : List String) (name : String)
  | invalidRegisteredProvider (name : String)
  | duplicateProvider (name : String)
  | other (msg : String)
deriving DecidableEq, Repr

/-! ## Tilers and the capability union -/

/-- Extent of a layer: `geom.Extent` is `[4]float64` ordered
minx, miny, maxx, maxy; coordinates are modelled as exact rationals. -/
structure Extent where
  minx : ℚ
  miny : ℚ
  maxx : ℚ
  maxy : ℚ
deriving DecidableEq, Repr

/-- The world-extent fallback used by `TilerUnion.LayerExtent` in the source:
`geom.Extent{-180.0, -85.05112877980659, 180.0, 85.0511287798066}`. -/
def worldExtent : Extent :=
  { minx := -180
    miny := -85.05112877980659
    maxx := 180
    maxy := 85.0511287798066 }

/-- The observable part of a `provider.LayerInfo`. -/
structure LayerInfoM where
  id : String
  name : String
  geomType : Nat
  srid : Nat
deriving DecidableEq, Repr

/-- A concrete backend implementing the `Tiler`/`MVTTiler` method set that
`TilerUnion` forwards to, modelled as a record of response functions
(the Go interface's method table). `Layers` in Go returns
`([]LayerInfo, error)`, modelled as `Except`. -/
structure TilerM where
  layersFn : Except PErr (List LayerInfoM)
  layerFn : String → Option LayerInfoM
  addLayerFn : Config → Option PErr
  layerExtentFn : String → Extent × Option PErr
  layerMinZoomFn : String → Int
  layerMaxZoomFn : String → Int

/-- `TilerUnion`: either a Std `Tiler` or an `MVTTiler`; only one should be
not nil. Nil interface values are modelled with `Option`. -/
structure TilerUnion where
  Std : Option TilerM
  Mvt : Option TilerM

/-- `TilerUnion.Layers`: Std first, then Mvt, otherwise `ErrNilInitFunc`. -/
def TilerUnion.Layers (tu : TilerUnion) : Except PErr (List LayerInfoM) :=
  match tu.Std with
  | some std => std.layersFn
  | none =>
    match tu.Mvt with
    | some mvt => mvt.layersFn
    | none => .error .nilInitFunc

/-- `TilerUnion.Layer`: Std first, then Mvt, otherwise `(nil, false)`. -/
def TilerUnion.Layer (tu : TilerUnion) (lyrID : String) : Option LayerInfoM :=
  match tu.Std with
  | some std => std.layerFn lyrID
  | none =>
    match tu.Mvt with
    | some mvt => mvt.layerFn lyrID
    | none => none

/-- `TilerUnion.AddLayer`: Std first, then Mvt, otherwise `ErrNilInitFunc`. -/
def TilerUnion.AddLayer (tu : TilerUnion) (config : Config) : Option PErr :=
  match tu.Std with
  | some std => std.addLayerFn config
  | none =>
    match tu.Mvt with
    | some mvt => mvt.addLayerFn config
    | none => some .nilInitFunc

/-- `TilerUnion.LayerExtent`: Std first, then Mvt, otherwise the world
extent together with `ErrNilInitFunc`. -/
def TilerUnion.LayerExtent (tu : TilerUnion) (lyrID : String) :
    Extent × Option PErr :=
  match tu.Std with
  | some std => std.layerExtentFn lyrID
  | none =>
    match tu.Mvt with
    | some mvt => mvt.layerExtentFn lyrID
    | none => (worldExtent, some .nilInitFunc)

/-- `TilerUnion.LayerMinZoom`: Std first, then Mvt, otherwise 0. -/
def TilerUnion.LayerMinZoom (tu : TilerUnion) (lyrID : String) : Int :=
  match tu.Std with
  | some std => std.layerMinZoomFn lyrID
  | none =>
    match tu.Mvt with
    | some mvt => mvt.layerMinZoomFn lyrID
    | none => 0

/-- `TilerUnion.LayerMaxZoom`: Std first, then Mvt, otherwise 16. -/
def TilerUnion.LayerMaxZoom (tu : TilerUnion) (lyrID : String) : Int :=
  match tu.Std with
  | some std => std.layerMaxZoomFn lyrID
  | none =>
    match tu.Mvt with
    | some mvt => mvt.layerMaxZoomFn lyrID
    | none => 16

/-! ## Registry state and operations -/

/-- `InitFunc`: constructor of a standard provider. Go's
`(Tiler, error)` return is modelled as `Except`. -/
abbrev InitFunc : Type := Config → Except PErr TilerM

/-- `MVTInitFunc`: constructor of an mvt provider. -/
abbrev MVTInitFunc : Type := Config → Except PErr TilerM

/-- `pfns`: registry entry. `init` is filled for a standard provider,
`mvtInit` for an mvt provider; nil function values are `none`.
The cleanup callback is kept as an opaque presence flag. -/
structure Pfns where
  init : Option InitFunc
  mvtInit : Option MVTInitFunc
  cleanup : Option Unit

/-- The process-wide `providers map[string]pfns`, written only by
insertion, modelled as an association list in insertion order; the empty
list plays the role of the nil map. -/
abbrev Registry : Type := List (String × Pfns)

/-- Names bound in the registry, in insertion order. -/
def Registry.names (reg : Registry) : List String := reg.map Prod.fst

/-- Map lookup on the registry. -/
def Registry.find (reg : Registry) (name : String) : Option Pfns :=
  List.lookup name reg

/-- `Register`: fails with `ErrNilInitFunc` on a nil init function, fails
with the `provider %v already exists` error on a duplicate name, otherwise
adds the entry (with only `init` filled). The state-passing result is the
updated registry. -/
def Register (reg : Registry) (name : String) (init : Option InitFunc)
    (cleanup : Option Unit) : Except PErr Registry :=
  match init with
  | none => .error .nilInitFunc
  | some i =>
    if (reg.find name).isSome then
      .error (.duplicateProvider name)
    else
      .ok (reg ++ [(name, ⟨some i, none, cleanup⟩)])

/-- `MVTRegister`: like `Register` but fills only `mvtInit`. -/
def MVTRegister (reg : Registry) (name : String) (init : Option MVTInitFunc)
    (cleanup : Option Unit) : Except PErr Registry :=
  match init with
  | none => .error .nilInitFunc
  | some i =>
    if (reg.find name).isSome then
      .error (.duplicateProvider name)
    else
      .ok (reg ++ [(name, ⟨none, some i, cleanup⟩)])

/-- `Drivers`: list registered driver names matching the filter, exactly as
the source computes it (including `TypeAll` being the bitwise AND of the two
type bits). -/
def Drivers (reg : Registry) (types : List ProviderType) : List String :=
  if reg.isEmpty then []
  else
    let filter := providerFilterInclude types
    let all := filter = 0 ∨ filter = TypeAll
    let mvt := filterIs filter [.mvt]
    let std := filterIs filter [.std]
    reg.filterMap fun kv =>
      if all then some kv.1
      else if mvt then
        if kv.2.mvtInit.isNone then none else some kv.1
      else if std then
        if kv.2.init.isNone then none else some kv.1
      else none

/-- `For`: instantiate the named driver. Mirrors the Go shape
`(val TilerUnion, err error)`: the union and the error are returned
together. -/
def For (reg : Registry) (name : String) (config : Config) :
    TilerUnion × Option PErr :=
  let driversList := Drivers reg []
  if reg.isEmpty then
    (⟨none, none⟩, some (.unknownProvider driversList ""))
  else
    match reg.find name with
    | none => (⟨none, none⟩, some (.unknownProvider driversList name))
    | some p =>
      match p.init with
      | some init =>
        match init config with
        | .ok t => (⟨some t, none⟩, none)
        | .error e => (⟨none, none⟩, some e)
      | none =>
        match p.mvtInit with
        | some mvtInit =>
          match mvtInit config with
          | .ok t => (⟨none, some t⟩, none)
          | .error e => (⟨none, none⟩, some e)
        | none => (⟨none, none⟩, some (.invalidRegisteredProvider name))

/-! ## Concrete fixtures used by witnesses -/

/-- A trivial concrete backend, used to instantiate theorems. -/
def emptyTiler : TilerM :=
  { layersFn := .ok []
    layerFn := fun _ => none
    addLayerFn := fun _ => none
    layerExtentFn := fun _ => (worldExtent, none)
    layerMinZoomFn := fun _ => 3
    layerMaxZoomFn := fun _ => 14 }

/-- A constructor that always succeeds with `emptyTiler`. -/
def okInit : InitFunc := fun _ => .ok emptyTiler

/-- A constructor that always fails. -/
def failInit : InitFunc := fun _ => .error (.other "bad config")

/-- Registry entry of a standard-only driver. -/
def stdEntry : Pfns := ⟨some okInit, none, none⟩

/-- Registry entry of an mvt-only driver. -/
def mvtEntry : Pfns := ⟨none, some okInit, none⟩

/-! ## Go string primitives used by the postgis provider -/

/-- `strings.Contains` on character lists: the pattern occurs as a
contiguous substring (an empty pattern always occurs). -/
def containsAux (pat : List Char) : List Char → Bool
  | [] => pat.isEmpty
  | c :: rest => pat.isPrefixOf (c :: rest) || containsAux pat rest

/-- `strings.Contains (s, sub)`. -/
def goContains (s sub : String) : Bool := containsAux sub.data s.data

/-- `strings.Replace (s, old, new, -1)` on character lists: replace every
non-overlapping occurrence, scanning left to right. A nil pattern is left
alone (the Go empty-pattern insertion behavior is never exercised here:
all patterns are non-empty). Structural recursion on a fuel argument that
bounds the number of scan steps; `s.length` fuel always suffices because
every step consumes at least one character. -/
def replaceAux (pat rep : List Char) : Nat → List Char → List Char
  | _, [] => []
  | 0, s => s
  | fuel + 1, c :: rest =>
    if pat ≠ [] ∧ pat.isPrefixOf (c :: rest) then
      rep ++ replaceAux pat rep fuel ((c :: rest).drop pat.length)
    else
      c :: replaceAux pat rep fuel rest

/-- `strings.Replace (s, old, new, -1)`. -/
def goReplace (s old new : String) : String :=
  ⟨replaceAux old.data new.data s.data.length s.data⟩

/-! ## The postgis provider (`provider/postgis/postgis.go`) -/

namespace Postgis

/-- The seven canonical geometry kinds (`geom.Point{}` … `geom.Collection{}`). -/
inductive GeomType where
  | point
  | lineString
  | polygon
  | multiPoint
  | multiLineString
  | multiPolygon
  | collection
deriving DecidableEq, Repr

/-- The postgis `Layer` descriptor fields relevant to the claims. -/
structure Layer where
  id : String
  name : String
  idField : String
  geomField : String
  srid : Nat
  sql : String
  geomType : Option GeomType
deriving DecidableEq, Repr

/-- Go's zero value of `Layer` (what `p.layers[id]` yields for an absent
key). -/
def zeroLayer : Layer :=
  { id := "", name := "", idField := "", geomField := "", srid := 0
    sql := "", geomType := none }

/-- The mandatory bounding-box token `bboxToken`. -/
def bboxToken : String := "!BBOX!"

/-- `tegola.DefaultExtent`. -/
def defaultExtent : Nat := 4096

/-- Modelled from the spec: `replaceTokens` (the query synthesizer, whose
source file is not part of the extract) substitutes the bounding-box
placeholder with the rendered bounding-geometry predicate and the zoom
placeholder with the literal zoom integer, and passes all other template
text through unmodified; it performs no validation of the template. The
rendered bounding-box text is abstracted as `bboxVal`. -/
def replaceTokens (sql : String) (_l : Layer) (z : Nat) (bboxVal : String) :
    String :=
  goReplace (goReplace sql bboxToken bboxVal) "!ZOOM!" (toString z)

/-- One `ST_AsMVT` slot of `MVTForLayers`: the four-argument form when the
layer has no id field, the five-argument form otherwise. -/
def mvtSlot (mvtName : String) (l : Layer) (sql : String) : String :=
  if l.idField = "" then
    "(SELECT ST_AsMVT(q,'" ++ mvtName ++ "'," ++ toString defaultExtent ++
      ",'" ++ l.geomField ++ "') AS data FROM (" ++ sql ++ ") AS q)"
  else
    "(SELECT ST_AsMVT(q,'" ++ mvtName ++ "'," ++ toString defaultExtent ++
      ",'" ++ l.geomField ++ "','" ++ l.idField ++
      "') AS data FROM (" ++ sql ++ ") AS q)"

/-- The `sqls` list built by `MVTForLayers`: one entry per requested layer,
in input order. A layer id absent from the catalog is logged but the loop
does not skip the entry: the slot is built from the zero-value `Layer`. -/
def mvtSQLs (catalog : List (String × Layer)) (z : Nat) (bboxVal : String)
    (layers : List (String × String)) : List String :=
  layers.map fun lm =>
    let l := (List.lookup lm.1 catalog).getD zeroLayer
    mvtSlot lm.2 l (replaceTokens l.sql l z bboxVal)

/-- The single combined query string `MVTForLayers` sends to the backend. -/
def mvtCombinedSQL (catalog : List (String × Layer)) (z : Nat)
    (bboxVal : String) (layers : List (String × String)) : String :=
  "SELECT (" ++ String.intercalate "||" (mvtSQLs catalog z bboxVal layers) ++
    ") AS data"

/-! ### Max-zoom detection (`inspectLayerMaxZoom`) -/

/-- The probe loop of `inspectLayerMaxZoom`. The backend is abstracted as
`count z`, the `COUNT(*)` result for the tile containing the extent's
centroid at zoom `z` (the claim's premise that the per-centroid-tile
feature count is a function of zoom); `count z = none` models a failed
probe (a `replaceTokens` or row-scan error), on which the source returns
the ceiling. Structural recursion on fuel: `(16 - z).toNat` steps always
suffice because `z` increases by one per step up to the ceiling. -/
def maxZoomGo (count : Int → Option Int) : Nat → Int → Int
  | 0, _ => 16
  | fuel + 1, z =>
    if z < 16 then
      match count z with
      | none => 16
      | some cnt => if cnt < 1024 then z else maxZoomGo count fuel (z + 1)
    else 16

/-- `inspectLayerMaxZoom`: `maxZoom := 16`; starting at the detected
min zoom, probe each zoom below the ceiling and return the first zoom
whose count falls below 1024, otherwise the ceiling. -/
def inspectLayerMaxZoom (count : Int → Option Int) (minZoom : Int) : Int :=
  maxZoomGo count (16 - minZoom).toNat minZoom

/-- The count at zoom `z` exists and is below the density threshold 1024. -/
def countBelow (count : Int → Option Int) (z : Int) : Prop :=
  ∃ c, count z = some c ∧ c < 1024

/-! ### Feature streaming (`TileFeatures`) -/

/-- Outcome of decoding one row's geometry column.
Modelled from the spec: the WKB decoder (`wkb.DecodeBytes`, an external
geometry library) is abstracted by its outcome per row: empty byte data,
an unsupported geometry encoding (`wkb.ErrUnknownGeometryType`), another
decode error, or a decoded geometry (opaque handle). -/
inductive RowGeomOutcome where
  | emptyGeom
  | unsupported
  | badDecode (msg : String)
  | geomOK (g : Nat)
deriving DecidableEq, Repr

/-- The values `decipherFields` yields for one row: the canonical numeric
feature id, the geometry column's decode outcome, and the tag mapping. -/
structure RowData where
  gid : Nat
  geom : RowGeomOutcome
  tags : List (String × String)
deriving DecidableEq, Repr

/-- One result row, by its `decipherFields` outcome.
Modelled from the spec: `decipherFields` lives outside the extract; it
either detects cancellation, fails with some other decode error, or
produces the row's data. -/
inductive Row where
  | canceled
  | failed (msg : String)
  | ok (d : RowData)
deriving DecidableEq, Repr

/-- A `provider.Feature` record passed to the sink. -/
structure Feature where
  id : Nat
  geom : Nat
  srid : Nat
  tags : List (String × String)
deriving DecidableEq, Repr

/-- The error kinds `TileFeatures` can return. -/
inductive StreamErr where
  | layerNotFound (id : String)
  | geomFieldNotFound (geomField layerName : String)
  | canceled
  | decodeError (msg : String)
  | sink (msg : String)
deriving DecidableEq, Repr

/-- The log line of the unsupported-geometry warning. -/
def unsupportedWarning (lyrID geomField : String) : String :=
  "[WARNING] Ignoring unsupported geometry in layer (" ++ lyrID ++
    "). Only basic 2D geometry type are supported. Try using `ST_Force2D(" ++
    geomField ++ ")`."

/-- The row loop of `TileFeatures`: per row, check cancellation, decipher,
skip empty geometry, handle the geometry decode outcome (skipping
unsupported encodings with the `reportedLayerFieldName` warning logic
`reported == "" || reported == rplfn` of the source), build the feature and
hand it to the sink, propagating a sink error unchanged. Returns the
features the sink received in order, the warning log lines, and the error
result. -/
def tileFeaturesLoop (lyrID : String) (plyr : Layer)
    (fn : Feature → Option StreamErr) (ctxCanceled : Bool) :
    List Row → String → List Feature × List String × Option StreamErr
  | [], _ => ([], [], none)
  | r :: rest, reported =>
    if ctxCanceled then ([], [], some .canceled)
    else
      match r with
      | .canceled => ([], [], some .canceled)
      | .failed msg => ([], [], some (.decodeError msg))
      | .ok d =>
        match d.geom with
        | .emptyGeom => tileFeaturesLoop lyrID plyr fn ctxCanceled rest reported
        | .badDecode msg => ([], [], some (.decodeError msg))
        | .unsupported =>
          let rplfn := lyrID ++ ":" ++ plyr.geomField
          if reported = "" ∨ reported = rplfn then
            let res := tileFeaturesLoop lyrID plyr fn ctxCanceled rest rplfn
            (res.1, unsupportedWarning lyrID plyr.geomField :: res.2.1, res.2.2)
          else
            tileFeaturesLoop lyrID plyr fn ctxCanceled rest reported
        | .geomOK g =>
          let feature : Feature := ⟨d.gid, g, plyr.srid, d.tags⟩
          match fn feature with
          | some e => ([feature], [], some e)
          | none =>
            let res := tileFeaturesLoop lyrID plyr fn ctxCanceled rest reported
            (feature :: res.1, res.2.1, res.2.2)

/-- `TileFeatures`: look the layer up (else `ErrLayerNotFound`), check
cancellation before issuing the query, check that the result columns hold
the configured geometry field (else `ErrGeomFieldNotFound`), then run the
row loop with `reportedLayerFieldName := ""`. The synthesized query's
execution is abstracted: `columns` and `rows` are the backend's result. -/
def TileFeatures (layers : List (String × Layer)) (lyrID : String)
    (columns : List String) (rows : List Row)
    (fn : Feature → Option StreamErr) (ctxCanceled : Bool) :
    List Feature × List String × Option StreamErr :=
  match List.lookup lyrID layers with
  | none => ([], [], some (.layerNotFound lyrID))
  | some plyr =>
    if ctxCanceled then ([], [], some .canceled)
    else if columns.contains plyr.geomField then
      tileFeaturesLoop lyrID plyr fn ctxCanceled rows ""
    else
      ([], [], some (.geomFieldNotFound plyr.geomField plyr.name))

end Postgis

namespace Postgis

/-- Catalog fixtures for the aggregator theorems: layers `A` and `C` are
present, `B` is not. -/
def layerA : Layer :=
  { id := "A", name := "A", idField := "gid", geomField := "geom"
    srid := 3857, sql := "SELECT gid, geom FROM a", geomType := some .point }

/-- Catalog fixture, see `layerA`. -/
def layerC : Layer :=
  { id := "C", name := "C", idField := "gid", geomField := "geom"
    srid := 3857, sql := "SELECT gid, geom FROM c", geomType := some .point }

/-- The catalog holding exactly `A` and `C`. -/
def catalogAC : List (String × Layer) := [("A", layerA), ("C", layerC)]

/-- A synthetic backend whose per-centroid-tile count decreases with zoom:
10000 − 1000·z, which first falls below 1024 at zoom 9. -/
def wcount : Int → Option Int := fun z => some (10000 - 1000 * z)

/-- Streaming fixture layer. -/
def roadsLayer : Layer :=
  { id := "roads", name := "roads", idField := "gid", geomField := "geom"
    srid := 3857, sql := "SELECT gid, ST_AsBinary(geom) AS geom FROM roads WHERE geom && !BBOX!"
    geomType := some .lineString }

/-- A sink that accepts every feature. -/
def sinkOK : Feature → Option StreamErr := fun _ => none

/-! ### Layer registration (`AddLayer`, `CreateProvider`) -/

/-- Go's regexp `\s` (RE2): `[\t\n\f\r ]`. -/
def isGoSpace (c : Char) : Bool :=
  c = ' ' ∨ c = '\t' ∨ c = '\n' ∨ c = '\x0c' ∨ c = '\r'

/-- Drop a `--` line comment through its terminating newline; `none` when
the newline is missing (the regex arm `--.*\n` then cannot match). -/
def dropThroughNewline : List Char → Option (List Char)
  | [] => none
  | c :: rest => if c = '\n' then some rest else dropThroughNewline rest

/-- The `isSelectQuery` regexp `(?i)^((\s*)(--.*\n)?)*select`: skip any
leading whitespace and full `--` line comments, then require `select`
case-insensitively. Fuel-structural; `length + 1` fuel suffices since each
round consumes at least one character. -/
def isSelectAux : Nat → List Char → Bool
  | 0, _ => false
  | fuel + 1, s =>
    let rest := s.dropWhile isGoSpace
    if "select".data.isPrefixOf ((rest.take 6).map Char.toLower) then true
    else if "--".data.isPrefixOf rest then
      match dropThroughNewline rest with
      | none => false
      | some rest' => isSelectAux fuel rest'
    else false

/-- `isSelectQuery.MatchString`. -/
def isSelectQuery (s : String) : Bool := isSelectAux (s.length + 1) s.data

/-- The per-layer errors `AddLayer` can return. -/
inductive LayerErr where
  | missingField (key : String)
  | duplicated (lid : String)
  | idGeomSame (lid : String)
  | missingBBoxToken (lid : String)
  | missingGeomField (lid geomfld : String)
  | missingIDField (lid idfld : String)
  | genSQLFailed (lid msg : String)
  | geomTypeUnsupported (lid msg : String)
  | inspectFailed (lid msg : String)
deriving DecidableEq, Repr

/-- One layer's configuration dictionary: `none` is an absent key (for the
required `id`/`name` keys, `config.String(key, nil)` then errors). -/
structure LayerConfig where
  id : Option String := none
  name : Option String := none
  fields : List String := []
  geomField : Option String := none
  idField : Option String := none
  geomType : Option String := none
  tablename : Option String := none
  sql : Option String := none
  srid : Option Nat := none
  layerType : Option String := none

/-- The postgis `Provider` state mutated by `AddLayer`: the layer catalog,
the first registered layer id, and the provider default SRID. -/
structure ProviderState where
  layers : List (String × Layer)
  firstlayer : String
  srid : Nat

/-- Modelled from the spec: `genSQL`/`genMvtSQL` (query generation from a
table name, issuing a column probe) and `inspectLayerGeomType` (the
geometry-type introspection probe, which may also rewrite the layer's
geometry field) live outside the extract / behind the connection pool; they
are abstracted as oracles that either fail or produce the generated SQL
resp. the updated layer. -/
structure Introspect where
  genSQL : Layer → String → List String → Except String String
  genMvtSQL : Layer → String → List String → Except String String
  inspectGeomType : Layer → Except String Layer

/-- `strings.ToLower` (the names compared here are ASCII). -/
def goToLower (s : String) : String := ⟨s.data.map Char.toLower⟩

/-- `setLayerGeomType`: map the configured geometry-type name to one of the
seven canonical kinds, case-insensitively; unknown names are rejected. -/
def setLayerGeomType (geomType : String) : Except String GeomType :=
  match goToLower geomType with
  | "point" => .ok .point
  | "linestring" => .ok .lineString
  | "polygon" => .ok .polygon
  | "multipoint" => .ok .multiPoint
  | "multilinestring" => .ok .multiLineString
  | "multipolygon" => .ok .multiPolygon
  | "geometrycollection" => .ok .collection
  | _ => .error "unsupported geometry_type"

/-- The explicit-template validation of `AddLayer` (postgis.go:795-811):
normalize the `!BOX!`/`!bbox!` spellings to `!BBOX!`, require the `!BBOX!`
token, and — when the template is not a wildcard projection (`*` absent) —
require the geometry-field and id-field names to occur in the text. -/
def validateExplicitSQL (lid sql geomfld idfld : String) :
    Except LayerErr String :=
  let sql2 := goReplace (goReplace sql "!BOX!" "!BBOX!") "!bbox!" "!BBOX!"
  if goContains sql2 bboxToken = false then
    .error (.missingBBoxToken lid)
  else if goContains sql2 "*" = false then
    if goContains sql2 geomfld = false then
      .error (.missingGeomField lid geomfld)
    else if goContains sql2 idfld = false then
      .error (.missingIDField lid idfld)
    else .ok sql2
  else .ok sql2

/-- The part of `AddLayer` after the duplicate check: read the remaining
config keys, either validate the explicit SQL template or generate SQL from
the table name (mvt variant unless `type` is `postgis`), then fix the
geometry type (explicitly configured or introspected). Returns the layer to
be added to the catalog. -/
def addLayerRest (b : Introspect) (srid : Nat) (cfg : LayerConfig)
    (lid : String) : Except LayerErr Layer :=
  match cfg.name with
  | none => .error (.missingField "name")
  | some lname =>
    let geomfld := cfg.geomField.getD "geom"
    let idfld := cfg.idField.getD ""
    if idfld = geomfld then .error (.idGeomSame lid)
    else
      let geomType := cfg.geomType.getD ""
      let tblName := cfg.tablename.getD lname
      let sql := cfg.sql.getD ""
      let lsrid := cfg.srid.getD srid
      let l : Layer :=
        { id := lid, name := lname, idField := idfld, geomField := geomfld
          srid := lsrid, sql := "", geomType := none }
      -- a non-SELECT custom sql is treated as a sub-query table name
      let tblName2 :=
        if sql ≠ "" ∧ isSelectQuery sql = false then sql else tblName
      let sqlE := if sql ≠ "" ∧ isSelectQuery sql = false then "" else sql
      let sqlRes : Except LayerErr String :=
        if sqlE ≠ "" then validateExplicitSQL lid sqlE geomfld idfld
        else
          match
            (if cfg.layerType.getD "" = "postgis" then
              b.genSQL l tblName2 cfg.fields
            else b.genMvtSQL l tblName2 cfg.fields) with
          | .error e => .error (.genSQLFailed lid e)
          | .ok s => .ok s
      match sqlRes with
      | .error e => .error e
      | .ok s =>
        let l2 : Layer := { l with sql := s }
        if geomType ≠ "" then
          match setLayerGeomType geomType with
          | .error e => .error (.geomTypeUnsupported lid e)
          | .ok gt => .ok { l2 with geomType := some gt }
        else
          match b.inspectGeomType l2 with
          | .error e => .error (.inspectFailed lid e)
          | .ok l3 => .ok l3

/-- `AddLayer` on the provider state (pointer receiver): the returned state
carries every mutation made before an error exit — in particular
`firstlayer` is set right after the duplicate check — while the layer
catalog itself is only extended on success. -/
def AddLayer (b : Introspect) (p : ProviderState) (cfg : LayerConfig) :
    ProviderState × Option LayerErr :=
  match cfg.id with
  | none => (p, some (.missingField "id"))
  | some lid =>
    if (List.lookup lid p.layers).isSome then (p, some (.duplicated lid))
    else
      let p2 := if p.layers.isEmpty then { p with firstlayer := lid } else p
      match addLayerRest b p2.srid cfg lid with
      | .error e => (p2, some e)
      | .ok l => ({ p2 with layers := p2.layers ++ [(lid, l)] }, none)

/-- The layer-registration phase of `CreateProvider`
(postgis.go:199-213): start with an empty catalog and call `AddLayer` for
each configured layer, ignoring each call's error; the constructed provider
is returned with a nil error. (The preceding connection-parameter phase
returns its own errors and is not part of this loop.) -/
def createProviderLayers (b : Introspect) (srid : Nat)
    (layerConfigs : List LayerConfig) : ProviderState × Option LayerErr :=
  let p0 : ProviderState := { layers := [], firstlayer := "", srid := srid }
  (layerConfigs.foldl (fun p cfg => (AddLayer b p cfg).1) p0, none)

/-- An introspection oracle that always succeeds. -/
def noopIntrospect : Introspect :=
  { genSQL := fun _ _ _ => .ok "SELECT * FROM t WHERE geom && !BBOX!"
    genMvtSQL := fun _ _ _ => .ok "SELECT * FROM t WHERE geom && !BBOX!"
    inspectGeomType := fun l => .ok l }

/-- A fresh provider state. -/
def emptyProvider : ProviderState :=
  { layers := [], firstlayer := "", srid := 3857 }

/-- A layer config whose explicit template lacks the `!BBOX!` token. -/
def cfgNoBBox : LayerConfig :=
  { id := some "w", name := some "w", geomField := some "geom"
    idField := some "gid", geomType := some "point"
    sql := some "SELECT gid, geom FROM t" }

/-- A well-formed layer config. -/
def cfgGood : LayerConfig :=
  { id := some "ok", name := some "ok", geomField := some "geom"
    idField := some "gid", geomType := some "point"
    sql := some "SELECT gid, geom FROM t WHERE geom && !BBOX!" }

end Postgis

end Tegola

namespace Tegola

/-! ## Theorems: Go string primitives -/

theorem replaceAux_of_not_contains (pat rep : List Char) (fuel : Nat)
    (s : List Char) (h : containsAux pat s = false) :
    replaceAux pat rep fuel s = s := by
  induction fuel generalizing s with
  | zero => cases s <;> rfl
  | succ n ih =>
    cases s with
    | nil => rfl
    | cons c rest =>
      rw [containsAux] at h
      simp only [Bool.or_eq_false_iff] at h
      rw [replaceAux, if_neg (by simp [h.1]), ih rest h.2]

/-- A `goReplace` whose pattern does not occur leaves the string alone. -/
theorem goReplace_of_not_contains (s old new : String)
    (h : goContains s old = false) : goReplace s old new = s := by
  unfold goReplace
  rw [replaceAux_of_not_contains _ _ _ _ h]

/-! ## Theorems: driver registry -/

/-- C6: `Register`/`MVTRegister` with an absent (nil) constructor fail with
`ErrNilInitFunc`; with a name already present they fail with the
duplicate-driver error (leaving the registry unchanged, since the updated
state is only produced on success); a successful registration appends
exactly the one new entry, so the name table becomes the old one plus the
new name. -/
theorem registration_duplicate_and_nil_constructor
    (reg : Registry) (name : String) (cleanup : Option Unit) :
    (Register reg name none cleanup = .error .nilInitFunc) ∧
    (MVTRegister reg name none cleanup = .error .nilInitFunc) ∧
    (∀ i : InitFunc, (reg.find name).isSome →
      Register reg name (some i) cleanup = .error (.duplicateProvider name)) ∧
    (∀ i : MVTInitFunc, (reg.find name).isSome →
      MVTRegister reg name (some i) cleanup =
        .error (.duplicateProvider name)) ∧
    (∀ i : InitFunc, (reg.find name).isSome = false →
      Register reg name (some i) cleanup =
        .ok (reg ++ [(name, ⟨some i, none, cleanup⟩)]) ∧
      ∀ reg', Register reg name (some i) cleanup = .ok reg' →
        reg'.names = reg.names ++ [name]) ∧
    (∀ i : MVTInitFunc, (reg.find name).isSome = false →
      MVTRegister reg name (some i) cleanup =
        .ok (reg ++ [(name, ⟨none, some i, cleanup⟩)])) := by
  refine ⟨rfl, rfl, ?_, ?_, ?_, ?_⟩
  · intro i h
    simp [Register, h]
  · intro i h
    simp [MVTRegister, h]
  · intro i h
    refine ⟨by simp [Register, h], ?_⟩
    intro reg' hok
    simp [Register, h] at hok
    subst hok
    simp [Registry.names]
  · intro i h
    simp [MVTRegister, h]

/-- C6 witness: concrete registrations exercising each branch. -/
theorem registration_duplicate_and_nil_constructor_witness :
    (Register [("a", stdEntry)] "a" (some okInit) none =
      .error (.duplicateProvider "a")) ∧
    (Register [] "a" none none = .error .nilInitFunc) ∧
    (Register [] "a" (some okInit) none =
      .ok [("a", ⟨some okInit, none, none⟩)]) := by
  have h := registration_duplicate_and_nil_constructor
    [("a", stdEntry)] "a" none
  have h2 := registration_duplicate_and_nil_constructor
    ([] : Registry) "a" none
  refine ⟨h.2.2.1 okInit (by simp [Registry.find]), h2.1, ?_⟩
  have := (h2.2.2.2.2.1 okInit (by simp [Registry.find])).1
  simpa using this

/-- C5: `For` on an unregistered name fails with the unknown-driver error
carrying the list of known driver names; otherwise it invokes the
registered constructor and surfaces its error unchanged; on success exactly
one of the `Std`/`Mvt` sides of the returned union is non-nil. -/
theorem for_unknown_surfaces_and_one_side
    (reg : Registry) (name : String) (config : Config) :
    (reg.isEmpty = true →
      For reg name config =
        (⟨none, none⟩, some (.unknownProvider (Drivers reg []) ""))) ∧
    (reg.isEmpty = false → reg.find name = none →
      For reg name config =
        (⟨none, none⟩, some (.unknownProvider (Drivers reg []) name))) ∧
    (∀ p i, reg.isEmpty = false → reg.find name = some p → p.init = some i →
      (∀ e, i config = .error e →
        For reg name config = (⟨none, none⟩, some e)) ∧
      (∀ t, i config = .ok t →
        For reg name config = (⟨some t, none⟩, none))) ∧
    (∀ p m, reg.isEmpty = false → reg.find name = some p → p.init = none →
      p.mvtInit = some m →
      (∀ e, m config = .error e →
        For reg name config = (⟨none, none⟩, some e)) ∧
      (∀ t, m config = .ok t →
        For reg name config = (⟨none, some t⟩, none))) ∧
    ((For reg name config).2 = none →
      ((For reg name config).1.Std.isSome ∧
        (For reg name config).1.Mvt = none) ∨
      ((For reg name config).1.Std = none ∧
        (For reg name config).1.Mvt.isSome)) := by
  refine ⟨?_, ?_, ?_, ?_, ?_⟩
  · intro h
    simp [For, h]
  · intro h hf
    simp [For, h, hf]
  · intro p i h hf hi
    constructor
    · intro e he
      simp [For, h, hf, hi, he]
    · intro t ht
      simp [For, h, hf, hi, ht]
  · intro p m h hf hi hm
    constructor
    · intro e he
      simp [For, h, hf, hi, hm, he]
    · intro t ht
      simp [For, h, hf, hi, hm, ht]
  · intro hok
    unfold For at hok ⊢
    by_cases h : reg.isEmpty
    · simp [h] at hok
    · simp [h] at hok ⊢
      rcases hf : reg.find name with _ | p
      · simp [hf] at hok
      · simp [hf] at hok ⊢
        rcases hi : p.init with _ | i
        · rcases hm : p.mvtInit with _ | m
          · simp [hi, hm] at hok
          · simp [hi, hm] at hok ⊢
            rcases hc : m config with e | t
            · simp [hc] at hok
            · simp [hc]
        · simp [hi] at hok ⊢
          rcases hc : i config with e | t
          · simp [hc] at hok
          · simp [hc]

/-- C5 witness: a registry with one std and one failing driver. -/
theorem for_unknown_surfaces_and_one_side_witness :
    (For [("a", stdEntry)] "b" 0 =
      (⟨none, none⟩,
        some (.unknownProvider (Drivers [("a", stdEntry)] []) "b"))) ∧
    (For [("a", ⟨some failInit, none, none⟩)] "a" 0 =
      (⟨none, none⟩, some (.other "bad config"))) ∧
    (For [("a", stdEntry)] "a" 0 = (⟨some emptyTiler, none⟩, none)) := by
  have h1 := for_unknown_surfaces_and_one_side [("a", stdEntry)] "b" 0
  have h2 := for_unknown_surfaces_and_one_side
    [("a", ⟨some failInit, none, none⟩)] "a" 0
  have h3 := for_unknown_surfaces_and_one_side [("a", stdEntry)] "a" 0
  refine ⟨h1.2.1 rfl (by simp [Registry.find]), ?_, ?_⟩
  · exact (h2.2.2.1 ⟨some failInit, none, none⟩ failInit rfl
      (by simp [Registry.find]) rfl).1 (.other "bad config") rfl
  · exact (h3.2.2.1 stdEntry okInit rfl
      (by simp [Registry.find, stdEntry]) rfl).2 emptyTiler rfl

/-- C7 (code evaluation at the failing input): in the source,
`TypeAll = TypeStd & TypeMvt` is a bitwise AND and evaluates to 0, so the
combined filter `Drivers(TypeStd, TypeMvt)` (filter value 3) misses the
`all` branch and takes the mvt-only branch: a registered standard-only
driver is excluded even though it has one of the requested capabilities.
Single-kind filters and the empty filter behave as the claim says. -/
theorem drivers_combined_filter_drops_std_only :
    TypeAll = 0 ∧
    Drivers [("a", stdEntry)] [.std, .mvt] = [] ∧
    Drivers [("a", stdEntry), ("b", mvtEntry)] [.std, .mvt] = ["b"] ∧
    Drivers [("a", stdEntry)] [.std] = ["a"] ∧
    Drivers [("a", stdEntry), ("b", mvtEntry)] [.mvt] = ["b"] ∧
    Drivers [("a", stdEntry), ("b", mvtEntry)] [] = ["a", "b"] := by
  exact ⟨rfl, rfl, rfl, rfl, rfl, rfl⟩

/-! ## Theorems: provider capability union -/

/-- C4: a `TilerUnion` with neither side populated fails `Layers` with
`ErrNilInitFunc` (the NoCapability error), returns the world-extent default
from `LayerExtent`, 0 from `LayerMinZoom` and 16 from `LayerMaxZoom`; when
a side is populated every forwarding operation dispatches to `Std` first,
then `Mvt`. -/
theorem tiler_union_defaults_and_dispatch
    (tu : TilerUnion) (lyrID : String) (config : Config) :
    (tu.Std = none → tu.Mvt = none →
      tu.Layers = .error .nilInitFunc ∧
      tu.Layer lyrID = none ∧
      tu.AddLayer config = some .nilInitFunc ∧
      tu.LayerExtent lyrID =
        (⟨-180, -85.05112877980659, 180, 85.0511287798066⟩,
          some .nilInitFunc) ∧
      tu.LayerMinZoom lyrID = 0 ∧
      tu.LayerMaxZoom lyrID = 16) ∧
    (∀ s, tu.Std = some s →
      tu.Layers = s.layersFn ∧
      tu.Layer lyrID = s.layerFn lyrID ∧
      tu.AddLayer config = s.addLayerFn config ∧
      tu.LayerExtent lyrID = s.layerExtentFn lyrID ∧
      tu.LayerMinZoom lyrID = s.layerMinZoomFn lyrID ∧
      tu.LayerMaxZoom lyrID = s.layerMaxZoomFn lyrID) ∧
    (∀ m, tu.Std = none → tu.Mvt = some m →
      tu.Layers = m.layersFn ∧
      tu.Layer lyrID = m.layerFn lyrID ∧
      tu.AddLayer config = m.addLayerFn config ∧
      tu.LayerExtent lyrID = m.layerExtentFn lyrID ∧
      tu.LayerMinZoom lyrID = m.layerMinZoomFn lyrID ∧
      tu.LayerMaxZoom lyrID = m.layerMaxZoomFn lyrID) := by
  refine ⟨?_, ?_, ?_⟩
  · intro hs hm
    simp [TilerUnion.Layers, TilerUnion.Layer, TilerUnion.AddLayer,
      TilerUnion.LayerExtent, TilerUnion.LayerMinZoom,
      TilerUnion.LayerMaxZoom, hs, hm, worldExtent]
  · intro s hs
    simp [TilerUnion.Layers, TilerUnion.Layer, TilerUnion.AddLayer,
      TilerUnion.LayerExtent, TilerUnion.LayerMinZoom,
      TilerUnion.LayerMaxZoom, hs]
  · intro m hs hm
    simp [TilerUnion.Layers, TilerUnion.Layer, TilerUnion.AddLayer,
      TilerUnion.LayerExtent, TilerUnion.LayerMinZoom,
      TilerUnion.LayerMaxZoom, hs, hm]

/-- C4 witness: the empty union at a concrete layer id. -/
theorem tiler_union_defaults_and_dispatch_witness :
    (TilerUnion.mk none none).Layers = .error .nilInitFunc ∧
    (TilerUnion.mk none none).LayerExtent "roads" =
      (⟨-180, -85.05112877980659, 180, 85.0511287798066⟩,
        some .nilInitFunc) ∧
    (TilerUnion.mk none none).LayerMinZoom "roads" = 0 ∧
    (TilerUnion.mk none none).LayerMaxZoom "roads" = 16 ∧
    (TilerUnion.mk (some emptyTiler) none).LayerMaxZoom "roads" = 14 := by
  have h := tiler_union_defaults_and_dispatch (TilerUnion.mk none none)
    "roads" 0
  have hd := (tiler_union_defaults_and_dispatch
    (TilerUnion.mk (some emptyTiler) none) "roads" 0).2.1 emptyTiler rfl
  obtain ⟨h1, _, _, h4, h5, h6⟩ := h.1 rfl rfl
  exact ⟨h1, h4, h5, h6, hd.2.2.2.2.2⟩

/-! ## Theorems: native tile aggregator -/

/-- C2 (code evaluation at the failing input): for layers `[A, B, C]` with
`B` absent from the catalog, `MVTForLayers` logs the missing id but its
loop has no skip: the slot for `B` is built from the zero-value `Layer`
(empty SQL, empty geometry field) and stays in the combined query as the
degenerate fragment `(SELECT ST_AsMVT(q,'B',4096,'') AS data FROM () AS q)`
instead of being omitted; the slot list for `[A, C]` is what omission
would have produced. -/
theorem mvt_absent_layer_slot_not_omitted :
    Postgis.mvtSQLs Postgis.catalogAC 0 "BBOX" [("A", "A"), ("B", "B"), ("C", "C")] =
      ["(SELECT ST_AsMVT(q,'A',4096,'geom','gid') AS data FROM (SELECT gid, geom FROM a) AS q)",
        "(SELECT ST_AsMVT(q,'B',4096,'') AS data FROM () AS q)",
        "(SELECT ST_AsMVT(q,'C',4096,'geom','gid') AS data FROM (SELECT gid, geom FROM c) AS q)"] ∧
    Postgis.mvtSQLs Postgis.catalogAC 0 "BBOX" [("A", "A"), ("C", "C")] =
      ["(SELECT ST_AsMVT(q,'A',4096,'geom','gid') AS data FROM (SELECT gid, geom FROM a) AS q)",
        "(SELECT ST_AsMVT(q,'C',4096,'geom','gid') AS data FROM (SELECT gid, geom FROM c) AS q)"] ∧
    goContains
      (Postgis.mvtCombinedSQL Postgis.catalogAC 0 "BBOX"
        [("A", "A"), ("B", "B"), ("C", "C")])
      "FROM () AS q" = true := by
  refine ⟨?_, ?_, ?_⟩ <;> decide

/-! ## Theorems: max-zoom detection -/

theorem maxZoomGo_first_below (count : Int → Option Int) :
    ∀ (fuel : Nat) (z : Int), fuel = (16 - z).toNat →
    (∀ w, z ≤ w → w < 16 → (count w).isSome) →
    ((∃ w, z ≤ w ∧ w < 16 ∧ Postgis.countBelow count w) →
      z ≤ Postgis.maxZoomGo count fuel z ∧
      Postgis.maxZoomGo count fuel z < 16 ∧
      Postgis.countBelow count (Postgis.maxZoomGo count fuel z) ∧
      ∀ w, z ≤ w → w < Postgis.maxZoomGo count fuel z →
        ¬ Postgis.countBelow count w) ∧
    ((∀ w, z ≤ w → w < 16 → ¬ Postgis.countBelow count w) →
      Postgis.maxZoomGo count fuel z = 16) := by
  intro fuel
  induction fuel with
  | zero =>
    intro z hz htot
    have h16 : (16 : ℤ) ≤ z := by omega
    constructor
    · rintro ⟨w, hw1, hw2, _⟩
      exact absurd rfl (by omega : w ≠ w)
    · intro _
      rfl
  | succ n ih =>
    intro z hz htot
    have hzlt : z < 16 := by omega
    obtain ⟨c, hc⟩ := Option.isSome_iff_exists.mp (htot z le_rfl hzlt)
    have hred : Postgis.maxZoomGo count (n + 1) z =
        if c < 1024 then z else Postgis.maxZoomGo count n (z + 1) := by
      rw [Postgis.maxZoomGo, if_pos hzlt, hc]
    by_cases hlt : c < 1024
    · rw [hred, if_pos hlt] at *
      constructor
      · intro _
        refine ⟨le_rfl, hzlt, ⟨c, hc, hlt⟩, fun w hw1 hw2 => ?_⟩
        intro _
        omega
      · intro hnone
        exact absurd ⟨c, hc, hlt⟩ (hnone z le_rfl hzlt)
    · rw [hred, if_neg hlt] at *
      have hn : n = (16 - (z + 1)).toNat := by omega
      have htot' : ∀ w, z + 1 ≤ w → w < 16 → (count w).isSome :=
        fun w h1 h2 => htot w (by omega) h2
      have IH := ih (z + 1) hn htot'
      have hznb : ¬ Postgis.countBelow count z := by
        rintro ⟨c', hc', hlt'⟩
        rw [hc] at hc'
        rw [Option.some_inj] at hc'
        exact hlt (hc' ▸ hlt')
      constructor
      · rintro ⟨w, hw1, hw2, hwb⟩
        have hw1' : z + 1 ≤ w := by
          rcases eq_or_lt_of_le hw1 with rfl | h
          · exact absurd hwb hznb
          · omega
        obtain ⟨g1, g2, g3, g4⟩ := IH.1 ⟨w, hw1', hw2, hwb⟩
        refine ⟨by omega, g2, g3, fun v hv1 hv2 => ?_⟩
        rcases eq_or_lt_of_le hv1 with rfl | h
        · exact hznb
        · exact g4 v (by omega) hv2
      · intro hnone
        exact IH.2 fun w h1 h2 => hnone w (by omega) h2

/-- C3: for every backend whose per-centroid-tile feature count is a
function of zoom (every probe in range answers), `inspectLayerMaxZoom`
starts at the detected min zoom and returns the first zoom below the
ceiling 16 at which the `COUNT(*)` result falls below 1024; if the
threshold is never crossed it returns 16. -/
theorem inspect_max_zoom_first_below_threshold
    (count : Int → Option Int) (minZoom : Int)
    (htot : ∀ z, minZoom ≤ z → z < 16 → (count z).isSome) :
    ((∃ z, minZoom ≤ z ∧ z < 16 ∧ Postgis.countBelow count z) →
      minZoom ≤ Postgis.inspectLayerMaxZoom count minZoom ∧
      Postgis.inspectLayerMaxZoom count minZoom < 16 ∧
      Postgis.countBelow count (Postgis.inspectLayerMaxZoom count minZoom) ∧
      ∀ w, minZoom ≤ w → w < Postgis.inspectLayerMaxZoom count minZoom →
        ¬ Postgis.countBelow count w) ∧
    ((∀ z, minZoom ≤ z → z < 16 → ¬ Postgis.countBelow count z) →
      Postgis.inspectLayerMaxZoom count minZoom = 16) :=
  maxZoomGo_first_below count _ minZoom rfl htot

/-- C3 witness: the synthetic decreasing backend `wcount` detected from
min zoom 2 stops exactly at zoom 9, the first zoom whose count
(10000 − 1000·9 = 1000) drops below 1024. -/
theorem inspect_max_zoom_first_below_threshold_witness :
    Postgis.countBelow Postgis.wcount
      (Postgis.inspectLayerMaxZoom Postgis.wcount 2) ∧
    (∀ w, (2 : ℤ) ≤ w → w < Postgis.inspectLayerMaxZoom Postgis.wcount 2 →
      ¬ Postgis.countBelow Postgis.wcount w) ∧
    Postgis.inspectLayerMaxZoom Postgis.wcount 2 = 9 := by
  have htot : ∀ z : ℤ, 2 ≤ z → z < 16 → (Postgis.wcount z).isSome :=
    fun z _ _ => rfl
  have hex : ∃ z : ℤ, 2 ≤ z ∧ z < 16 ∧ Postgis.countBelow Postgis.wcount z :=
    ⟨9, by norm_num, by norm_num, ⟨1000, rfl, by norm_num⟩⟩
  have h := (inspect_max_zoom_first_below_threshold Postgis.wcount 2 htot).1 hex
  exact ⟨h.2.2.1, h.2.2.2, by decide⟩

/-! ## Theorems: feature streaming -/

/-- C1 (code evaluation at the failing input): streaming four rows of which
rows 1 and 3 carry an unsupported geometry encoding skips those rows
without failing the stream, the sink receives exactly the two remaining
records in original row order — but the warning is logged twice, once per
unsupported row, because the source's dedup condition
`reportedLayerFieldName == "" || reportedLayerFieldName == rplfn` is
satisfied on every occurrence of the same (layer, field) pair, despite the
adjacent comment `Only report to the log once`. -/
theorem tile_features_warning_logged_per_row :
    Postgis.TileFeatures [("roads", Postgis.roadsLayer)] "roads"
        ["gid", "geom"]
        [.ok ⟨1, .unsupported, []⟩, .ok ⟨2, .geomOK 20, []⟩,
          .ok ⟨3, .unsupported, []⟩, .ok ⟨4, .geomOK 40, []⟩]
        Postgis.sinkOK false =
      ([⟨2, 20, 3857, []⟩, ⟨4, 40, 3857, []⟩],
        [Postgis.unsupportedWarning "roads" "geom",
          Postgis.unsupportedWarning "roads" "geom"],
        none) ∧
    (Postgis.TileFeatures [("roads", Postgis.roadsLayer)] "roads"
        ["gid", "geom"]
        [.ok ⟨1, .unsupported, []⟩, .ok ⟨2, .geomOK 20, []⟩,
          .ok ⟨3, .unsupported, []⟩, .ok ⟨4, .geomOK 40, []⟩]
        Postgis.sinkOK false).2.1.length = 2 := by
  exact ⟨by decide, by decide⟩

theorem tileFeaturesLoop_skip_empty (lyrID : String) (plyr : Postgis.Layer)
    (fn : Postgis.Feature → Option Postgis.StreamErr)
    (gid : Nat) (tags : List (String × String)) (rows₂ : List Postgis.Row) :
    ∀ (rows₁ : List Postgis.Row) (reported : String),
    Postgis.tileFeaturesLoop lyrID plyr fn false
        (rows₁ ++ Postgis.Row.ok ⟨gid, .emptyGeom, tags⟩ :: rows₂) reported =
      Postgis.tileFeaturesLoop lyrID plyr fn false (rows₁ ++ rows₂)
        reported := by
  intro rows₁
  induction rows₁ with
  | nil =>
    intro reported
    simp [Postgis.tileFeaturesLoop]
  | cons r rows₁ ih =>
    intro reported
    cases r with
    | canceled => simp [Postgis.tileFeaturesLoop]
    | failed msg => simp [Postgis.tileFeaturesLoop]
    | ok d =>
      cases hd : d.geom with
      | emptyGeom => simp [Postgis.tileFeaturesLoop, hd, ih]
      | badDecode msg => simp [Postgis.tileFeaturesLoop, hd]
      | unsupported => simp [Postgis.tileFeaturesLoop, hd, ih]
      | geomOK g =>
        cases hf : fn ⟨d.gid, g, plyr.srid, d.tags⟩ with
        | none => simp [Postgis.tileFeaturesLoop, hd, hf, ih]
        | some e => simp [Postgis.tileFeaturesLoop, hd, hf]

/-- C10: a row whose geometry column value is empty (zero-length byte
data) is skipped without invoking the sink, without logging a warning and
without failing the stream: the whole `TileFeatures` outcome — features
delivered, warnings logged, and final result — is the same as if the row
were not in the result set at all, for every catalog, layer id, column
set, sink and surrounding rows. -/
theorem tile_features_skips_empty_geometry
    (layers : List (String × Postgis.Layer)) (lyrID : String)
    (columns : List String) (fn : Postgis.Feature → Option Postgis.StreamErr)
    (gid : Nat) (tags : List (String × String))
    (rows₁ rows₂ : List Postgis.Row) :
    Postgis.TileFeatures layers lyrID columns
        (rows₁ ++ Postgis.Row.ok ⟨gid, .emptyGeom, tags⟩ :: rows₂) fn false =
      Postgis.TileFeatures layers lyrID columns (rows₁ ++ rows₂) fn false := by
  unfold Postgis.TileFeatures
  cases List.lookup lyrID layers with
  | none => rfl
  | some plyr =>
    cases hcol : columns.contains plyr.geomField with
    | false => simp only [hcol, Bool.false_eq_true, if_false]
    | true =>
      simp only [hcol, if_true]
      exact tileFeaturesLoop_skip_empty lyrID plyr fn gid tags rows₂ rows₁ ""

/-- C10 witness: a three-row stream whose middle row has empty geometry
behaves exactly like the two-row stream without it. -/
theorem tile_features_skips_empty_geometry_witness :
    Postgis.TileFeatures [("roads", Postgis.roadsLayer)] "roads"
        ["gid", "geom"]
        ([.ok ⟨1, .geomOK 10, []⟩] ++
          Postgis.Row.ok ⟨2, .emptyGeom, []⟩ :: [.ok ⟨3, .geomOK 30, []⟩])
        Postgis.sinkOK false =
      Postgis.TileFeatures [("roads", Postgis.roadsLayer)] "roads"
        ["gid", "geom"] ([.ok ⟨1, .geomOK 10, []⟩] ++ [.ok ⟨3, .geomOK 30, []⟩])
        Postgis.sinkOK false :=
  tile_features_skips_empty_geometry [("roads", Postgis.roadsLayer)]
    "roads" ["gid", "geom"] Postgis.sinkOK 2 []
    [.ok ⟨1, .geomOK 10, []⟩] [.ok ⟨3, .geomOK 30, []⟩]

/-! ## Theorems: layer registration -/

theorem provider_ite_layers (p : Postgis.ProviderState) (lid : String) :
    (if p.layers.isEmpty then { p with firstlayer := lid } else p).layers =
      p.layers := by
  split <;> rfl

theorem lookup_append_isSome {β : Type} (l₁ l₂ : List (String × β))
    (a : String) (h : (List.lookup a (l₁ ++ l₂)).isSome) :
    (List.lookup a l₁).isSome ∨ (List.lookup a l₂).isSome := by
  induction l₁ with
  | nil => right; simpa using h
  | cons kv rest ih =>
    obtain ⟨k, v⟩ := kv
    cases hk : (a == k) with
    | true => left; simp [List.lookup, hk]
    | false =>
      rw [List.cons_append] at h
      simp only [List.lookup, hk] at h ⊢
      exact ih h

/-- Either `AddLayer` reports an error and leaves the layer catalog
untouched, or it succeeds and appends exactly the one new entry keyed by
the config's id. -/
theorem addLayer_layers_cases (b : Postgis.Introspect)
    (p : Postgis.ProviderState) (cfg : Postgis.LayerConfig) :
    ((Postgis.AddLayer b p cfg).2.isSome ∧
      (Postgis.AddLayer b p cfg).1.layers = p.layers) ∨
    ((Postgis.AddLayer b p cfg).2 = none ∧ ∃ lid l, cfg.id = some lid ∧
      (Postgis.AddLayer b p cfg).1.layers = p.layers ++ [(lid, l)]) := by
  unfold Postgis.AddLayer
  cases hid : cfg.id with
  | none => exact Or.inl ⟨rfl, rfl⟩
  | some lid =>
    cases hdup : (List.lookup lid p.layers).isSome with
    | true =>
      left
      constructor <;> simp [hdup]
    | false =>
      simp only [hdup, Bool.false_eq_true, if_false]
      split
      · exact Or.inl ⟨rfl, provider_ite_layers p lid⟩
      next l _ =>
        right
        refine ⟨rfl, lid, l, rfl, ?_⟩
        simp only [provider_ite_layers p lid]

theorem createProvider_lookup_mem (b : Postgis.Introspect)
    (cfgs : List Postgis.LayerConfig) :
    ∀ (p : Postgis.ProviderState) (lid : String),
    (List.lookup lid
        ((cfgs.foldl (fun p cfg => (Postgis.AddLayer b p cfg).1) p).layers)).isSome →
    (List.lookup lid p.layers).isSome ∨ ∃ cfg ∈ cfgs, cfg.id = some lid := by
  induction cfgs with
  | nil => intro p lid h; left; simpa using h
  | cons cfg rest ih =>
    intro p lid h
    rw [List.foldl_cons] at h
    rcases ih (Postgis.AddLayer b p cfg).1 lid h with h1 | h1
    · rcases addLayer_layers_cases b p cfg with ⟨_, heq⟩ | ⟨_, lid', l, hcid, heq⟩
      · rw [heq] at h1; exact Or.inl h1
      · rw [heq] at h1
        rcases lookup_append_isSome _ _ _ h1 with h2 | h2
        · exact Or.inl h2
        · right
          refine ⟨cfg, List.mem_cons_self _ _, ?_⟩
          have hl : lid = lid' := by
            by_contra hne
            have hbf : (lid == lid') = false := by simp [hne]
            rw [List.lookup, hbf] at h2
            simp at h2
          rw [hl]; exact hcid
    · right
      obtain ⟨c, hc, hcid⟩ := h1
      exact ⟨c, List.mem_cons_of_mem _ hc, hcid⟩

/-- C9: the layer loop of `CreateProvider` discards every per-layer
`AddLayer` error — the constructed provider is returned with a nil error in
all cases; a rejected layer leaves the catalog exactly as it was, and every
id in the final catalog stems from some config entry, so a layer rejected
whenever attempted is absent from the catalog. -/
theorem create_provider_discards_layer_errors (b : Postgis.Introspect)
    (srid : Nat) (cfgs : List Postgis.LayerConfig) :
    (Postgis.createProviderLayers b srid cfgs).2 = none ∧
    (∀ (p : Postgis.ProviderState) (cfg : Postgis.LayerConfig),
      (Postgis.AddLayer b p cfg).2.isSome →
      (Postgis.AddLayer b p cfg).1.layers = p.layers) ∧
    (∀ lid,
      (List.lookup lid
        (Postgis.createProviderLayers b srid cfgs).1.layers).isSome →
      ∃ cfg ∈ cfgs, cfg.id = some lid) := by
  refine ⟨rfl, ?_, ?_⟩
  · intro p cfg h
    rcases addLayer_layers_cases b p cfg with ⟨_, heq⟩ | ⟨hnone, _⟩
    · exact heq
    · rw [hnone] at h; exact absurd h (by simp)
  · intro lid h
    rcases createProvider_lookup_mem b cfgs
        { layers := [], firstlayer := "", srid := srid } lid h with h1 | h1
    · simp at h1
    · exact h1

/-- C9 witness: a config list whose second entry is rejected (its template
lacks `!BBOX!`): construction still reports no error, the rejected call
leaves the catalog unchanged, and the rejected id is absent from the final
catalog. -/
theorem create_provider_discards_layer_errors_witness :
    (Postgis.createProviderLayers Postgis.noopIntrospect 3857
      [Postgis.cfgGood, Postgis.cfgNoBBox]).2 = none ∧
    (Postgis.AddLayer Postgis.noopIntrospect Postgis.emptyProvider
        Postgis.cfgNoBBox).1.layers = Postgis.emptyProvider.layers := by
  have h := create_provider_discards_layer_errors Postgis.noopIntrospect
    3857 [Postgis.cfgGood, Postgis.cfgNoBBox]
  exact ⟨h.1, h.2.1 Postgis.emptyProvider Postgis.cfgNoBBox (by decide)⟩

/-- C8: for an explicit (`SELECT`-shaped, non-generated) template,
registration (`AddLayer`) fails when the normalized template
(`!BOX!`/`!bbox!` folded to `!BBOX!`) lacks the mandatory bounding-box
token, and — when the template is not a wildcard projection — when the
geometry-field or id-field name is absent from the template text; query
synthesis (`replaceTokens`) performs no such check: it substitutes tokens
and passes token-free templates through unchanged, never rejecting them. -/
theorem add_layer_rejects_template_at_registration
    (b : Postgis.Introspect) (p : Postgis.ProviderState)
    (cfg : Postgis.LayerConfig) (lid lname sql geomfld idfld : String)
    (hid : cfg.id = some lid)
    (hdup : (List.lookup lid p.layers).isSome = false)
    (hname : cfg.name = some lname)
    (hgf : cfg.geomField = some geomfld)
    (hif : cfg.idField = some idfld)
    (hne : idfld ≠ geomfld)
    (hsql : cfg.sql = some sql)
    (hnonempty : sql ≠ "")
    (hsel : Postgis.isSelectQuery sql = true) :
    ∀ norm,
      norm = goReplace (goReplace sql "!BOX!" "!BBOX!") "!bbox!" "!BBOX!" →
    ((goContains norm Postgis.bboxToken = false →
        (Postgis.AddLayer b p cfg).2 =
          some (.missingBBoxToken lid)) ∧
      (goContains norm Postgis.bboxToken = true →
        goContains norm "*" = false →
        (goContains norm geomfld = false →
          (Postgis.AddLayer b p cfg).2 =
            some (.missingGeomField lid geomfld)) ∧
        (goContains norm geomfld = true → goContains norm idfld = false →
          (Postgis.AddLayer b p cfg).2 =
            some (.missingIDField lid idfld))) ∧
      (∀ (l : Postgis.Layer) (z : Nat) (bboxVal : String),
        goContains sql Postgis.bboxToken = false →
        goContains sql "!ZOOM!" = false →
        Postgis.replaceTokens sql l z bboxVal = sql)) := by
  intro norm hnorm
  subst hnorm
  refine ⟨?_, ?_, ?_⟩
  · intro hb
    simp [Postgis.AddLayer, Postgis.addLayerRest, Postgis.validateExplicitSQL,
      hid, hdup, hname, hgf, hif, hsql, hsel, hne, hnonempty, hb]
  · intro hb hw
    constructor
    · intro hg
      simp [Postgis.AddLayer, Postgis.addLayerRest,
        Postgis.validateExplicitSQL, hid, hdup, hname, hgf, hif, hsql, hsel,
        hne, hnonempty, hb, hw, hg]
    · intro hg hi
      simp [Postgis.AddLayer, Postgis.addLayerRest,
        Postgis.validateExplicitSQL, hid, hdup, hname, hgf, hif, hsql, hsel,
        hne, hnonempty, hb, hw, hg, hi]
  · intro l z bboxVal hb hz
    unfold Postgis.replaceTokens
    rw [goReplace_of_not_contains _ _ _ hb, goReplace_of_not_contains _ _ _ hz]

/-- C8 witness: the explicit template `SELECT gid, geom FROM t` (no
`!BBOX!`) is rejected at registration with the missing-token error, while
`replaceTokens` on the very same template succeeds and passes it through. -/
theorem add_layer_rejects_template_at_registration_witness :
    (Postgis.AddLayer Postgis.noopIntrospect Postgis.emptyProvider
        Postgis.cfgNoBBox).2 =
      some (.missingBBoxToken "w") ∧
    Postgis.replaceTokens "SELECT gid, geom FROM t" Postgis.zeroLayer 7
        "ENV" = "SELECT gid, geom FROM t" := by
  have h := add_layer_rejects_template_at_registration
    Postgis.noopIntrospect Postgis.emptyProvider Postgis.cfgNoBBox
    "w" "w" "SELECT gid, geom FROM t" "geom" "gid"
    rfl rfl rfl rfl rfl (by decide) rfl (by decide) (by decide)
    (goReplace (goReplace "SELECT gid, geom FROM t" "!BOX!" "!BBOX!")
      "!bbox!" "!BBOX!") rfl
  exact ⟨h.1 (by decide),
    h.2.2 Postgis.zeroLayer 7 "ENV" (by decide) (by decide)⟩

end Tegola
